import Mathlib

/-!
Shallow embedding of the led_strip ESP-IDF component
(src/include/led_strip.h and src/src/led_strip.c).

Machine integers are modelled as `Nat`.  The timing fields are 15-bit
bit-fields in the source; every tick value arising in this development is
far below 2^15, so the fields are modelled as plain `Nat`.  The RMT engine
(vendor driver) is external to the repository: its results
(rmt_wait_tx_done, rmt_write_sample, allocation success, channel search)
are passed to the embedded functions as explicit parameters, and a NULL
pointer is modelled as `Option.none`.
-/

set_option autoImplicit false

namespace LedStrip

/-- Error codes of the ESP-IDF esp_err_t values used by led_strip.c. -/
inductive EspErr where
  | ESP_OK
  | ESP_ERR_INVALID_ARG
  | ESP_ERR_INVALID_SIZE
  | ESP_ERR_NOT_SUPPORTED
  | ESP_ERR_NO_MEM
  | ESP_ERR_NOT_FOUND
  | ESP_ERR_NOT_FINISHED
  | ESP_ERR_TIMEOUT
  | ESP_FAIL
  deriving DecidableEq, Repr

/-- Color order enum from led_strip.h (LED_STRIP_COLOR_ORDER_RGBW = 0, GRBW = 1). -/
inductive led_strip_color_order_t where
  | LED_STRIP_COLOR_ORDER_RGBW
  | LED_STRIP_COLOR_ORDER_GRBW
  deriving DecidableEq, Repr

/-- led_strip_manual_timing_t from led_strip.h: five 15-bit tick fields. -/
structure led_strip_manual_timing_t where
  low_on : Nat
  low_off : Nat
  high_on : Nat
  high_off : Nat
  reset_time : Nat
  deriving DecidableEq, Repr

/-- led_strip_color_t from led_strip.h: four 8-bit components. -/
structure led_strip_color_t where
  r : Nat
  g : Nat
  b : Nat
  w : Nat
  deriving DecidableEq, Repr

/-- rmt_item32_t of the ESP-IDF RMT driver: two (duration, level) phases. -/
structure rmt_item32_t where
  duration0 : Nat
  level0 : Nat
  duration1 : Nat
  level1 : Nat
  deriving DecidableEq, Repr

/-- led_strip_t from led_strip.c: the installed strip instance.
The pixel buffer is the byte array `pixel_colors`. -/
structure led_strip_t where
  channel : Nat
  led_timing : led_strip_manual_timing_t
  color_order : led_strip_color_order_t
  pixel_colors : List Nat
  led_count : Nat
  enable_w_channel : Bool
  has_flushed : Bool
  deriving DecidableEq, Repr

/-- LED_STRIP_CLOCK_DIVIDER from led_strip.h. -/
def LED_STRIP_CLOCK_DIVIDER : Nat := 8

/-- APB_CLK_FREQ: ESP32 platform constant (80 MHz APB clock), external to the
repository; the header derives the tick period from it. -/
def APB_CLK_FREQ : Nat := 80000000

/-- LED_STRIP_NS_PER_SECOND from led_strip.h (1e9). -/
def LED_STRIP_NS_PER_SECOND : Nat := 1000000000

/-- LED_STRIP_NS_PER_TICK from led_strip.h: 1e9 / (APB_CLK_FREQ / divider).
With the 80 MHz APB clock and divider 8 this is exactly 100 (ns per tick);
the C macro computes it in double precision but the value is the integer 100,
so Nat division is exact here. -/
def LED_STRIP_NS_PER_TICK : Nat :=
  LED_STRIP_NS_PER_SECOND / (APB_CLK_FREQ / LED_STRIP_CLOCK_DIVIDER)

/-- LED_STRIP_ROUND_UP from led_strip.h: round x up to a multiple of align. -/
def LED_STRIP_ROUND_UP (x align : Nat) : Nat :=
  ((x + align - 1) / align) * align

/-- LED_STRIP_NS_AS_TICKS from led_strip.h.  The C macro evaluates in double
precision (align is a double) and the quotient is truncated on assignment to
the 15-bit field; for an integer tick period that truncated value equals the
Nat computation below, namely ceil(x / period). -/
def LED_STRIP_NS_AS_TICKS (x : Nat) : Nat :=
  LED_STRIP_ROUND_UP x LED_STRIP_NS_PER_TICK / LED_STRIP_NS_PER_TICK

/-- LED_STRIP_US_AS_TICKS from led_strip.h. -/
def LED_STRIP_US_AS_TICKS (x : Nat) : Nat :=
  LED_STRIP_NS_AS_TICKS (x * 1000)

/-- Enum value LED_STRIP_TYPE_SK6822 = 0x01 from led_strip.h. -/
def LED_STRIP_TYPE_SK6822 : Nat := 1

/-- Enum value LED_STRIP_TYPE_WS281x = 0x03 from led_strip.h. -/
def LED_STRIP_TYPE_WS281x : Nat := 3

/-- led_strip_timing_config_t from led_strip.h.  The C union of
(type, manual) is modelled by carrying both fields; `use_manual_timing`
selects which one map_timing reads, exactly as in the source. -/
structure led_strip_timing_config_t where
  timing_type : Nat
  timing_manual : led_strip_manual_timing_t
  use_manual_timing : Bool
  deriving DecidableEq, Repr

/-- led_strip_config_t from led_strip.h. -/
structure led_strip_config_t where
  timing_config : led_strip_timing_config_t
  color_order : led_strip_color_order_t
  gpio_output_num : Int
  led_count : Nat
  enable_w_channel : Bool
  deriving DecidableEq, Repr

/-- CALC_COLOR_SIZE macro from led_strip.c: bytes per pixel (4 with W channel,
3 without), given the instance flag. -/
def CALC_COLOR_SIZE (enable_w_channel : Bool) : Nat :=
  if enable_w_channel then 4 else 3

/-- BIT_SET macro from led_strip.c: ((val & (1 << bit)) == (1 << bit)). -/
def BIT_SET (val bit : Nat) : Bool :=
  val &&& (1 <<< bit) == 1 <<< bit

/-- map_timing from led_strip.c: resolve a timing config to tick values;
named types use the compiled-in tables, unknown named types fall back to
the SK6822 table. -/
def map_timing (config : led_strip_timing_config_t) : led_strip_manual_timing_t :=
  if config.use_manual_timing then
    config.timing_manual
  else
    let sk6822 : led_strip_manual_timing_t :=
      { low_on := LED_STRIP_NS_AS_TICKS 300
        low_off := LED_STRIP_NS_AS_TICKS 900
        high_on := LED_STRIP_NS_AS_TICKS 600
        high_off := LED_STRIP_NS_AS_TICKS 600
        reset_time := LED_STRIP_US_AS_TICKS 80 }
    let ws281x : led_strip_manual_timing_t :=
      { low_on := LED_STRIP_NS_AS_TICKS 350
        low_off := LED_STRIP_NS_AS_TICKS 900
        high_on := LED_STRIP_NS_AS_TICKS 900
        high_off := LED_STRIP_NS_AS_TICKS 350
        reset_time := LED_STRIP_US_AS_TICKS 50 }
    if config.timing_type = LED_STRIP_TYPE_SK6822 then sk6822
    else if config.timing_type = LED_STRIP_TYPE_WS281x then ws281x
    else sk6822

/-- convert_from_rgbw_to_rgb from led_strip.c: drops w, copies r/g/b. -/
def convert_from_rgbw_to_rgb (color : led_strip_color_t) : led_strip_color_t :=
  { r := color.r, g := color.g, b := color.b, w := 0 }

/-- convert_from_rgb_to_rgbw from led_strip.c: sets w to 0, copies r/g/b. -/
def convert_from_rgb_to_rgbw (color : led_strip_color_t) : led_strip_color_t :=
  { r := color.r, g := color.g, b := color.b, w := 0 }

/-- set_color_data from led_strip.c: write one pixel into the byte buffer.
The 2nd and 3rd byte of each pixel group are physically swapped; the w byte
is written only when the W channel is enabled (and is written first, then
r, g, b, as in the source). -/
def set_color_data (handle : led_strip_t) (index : Nat)
    (color : led_strip_color_t) : led_strip_t :=
  let offset := CALC_COLOR_SIZE handle.enable_w_channel * index
  let offs :=
    match handle.color_order with
    | .LED_STRIP_COLOR_ORDER_GRBW =>
        (offset + 2, offset, offset + 1, offset + 3)
    | .LED_STRIP_COLOR_ORDER_RGBW =>
        (offset, offset + 2, offset + 1, offset + 3)
  let r_offset := offs.1
  let g_offset := offs.2.1
  let b_offset := offs.2.2.1
  let w_offset := offs.2.2.2
  let buf := handle.pixel_colors
  let buf := if handle.enable_w_channel then buf.set w_offset color.w else buf
  let buf := buf.set r_offset color.r
  let buf := buf.set g_offset color.g
  let buf := buf.set b_offset color.b
  { handle with pixel_colors := buf }

/-- translate_uint8_to_rmt_samples from led_strip.c: expand one byte into
8 two-phase RMT items, MSB first; bit 1 uses (high_on, high_off), bit 0 uses
(low_on, low_off); level0 = 1, level1 = 0 always. -/
def translate_uint8_to_rmt_samples (data : Nat)
    (timing : led_strip_manual_timing_t) : List rmt_item32_t :=
  (List.range 8).map (fun i =>
    let b_index := 7 - i
    if BIT_SET data b_index then
      { duration0 := timing.high_on, level0 := 1
        duration1 := timing.high_off, level1 := 0 }
    else
      { duration0 := timing.low_on, level0 := 1
        duration1 := timing.low_off, level1 := 0 })

/-- rmt_adapter from led_strip.c: the RMT translator callback.  `ctx` is the
context installed via rmt_translator_set_context (`none` models a missing or
NULL context, on which the adapter bails out reporting zero).  Returns
(translated_size, item_num, items written to dest). -/
def rmt_adapter (src : List Nat) (wanted_num : Nat)
    (ctx : Option led_strip_t) : Nat × Nat × List rmt_item32_t :=
  match ctx with
  | none => (0, 0, [])
  | some handle =>
    if wanted_num < 8 then
      (0, 0, [])
    else
      let convertable_bytes := wanted_num / 8
      let convertable_bytes :=
        if convertable_bytes > src.length then src.length else convertable_bytes
      let items :=
        (src.take convertable_bytes).flatMap
          (fun b => translate_uint8_to_rmt_samples b handle.led_timing)
      (convertable_bytes, 8 * convertable_bytes, items)

/-- Outcome of a public API call on a possibly-NULL handle: `crash` models a
dereference of a NULL pointer (undefined behavior in the C source), `ret`
models a normal return with an esp_err_t code and the resulting state. -/
inductive OpOutcome (α : Type) where
  | crash
  | ret (err : EspErr) (state : α)
  deriving DecidableEq, Repr

/-- led_strip_flush_done from led_strip.c.  `done_is_null` models a NULL
`done` out-pointer; `wait_err` is the result of rmt_wait_tx_done(channel, 0)
from the external RMT driver.  Returns the error code and the value written
through `done` (`none` when nothing was written). -/
def led_strip_flush_done (handle : Option led_strip_t) (done_is_null : Bool)
    (wait_err : EspErr) : OpOutcome (Option Bool) :=
  match handle with
  | none => .ret .ESP_ERR_INVALID_ARG none
  | some h =>
    if done_is_null then .ret .ESP_ERR_INVALID_ARG none
    else if h.has_flushed = false then .ret .ESP_OK (some true)
    else
      let done := wait_err == .ESP_OK
      if wait_err ≠ .ESP_OK ∧ wait_err ≠ .ESP_ERR_TIMEOUT then
        .ret wait_err (some done)
      else
        .ret .ESP_OK (some done)

/-- led_strip_start_flush from led_strip.c.  `wait_err` is the result of the
rmt_wait_tx_done(channel, 0) poll inside led_strip_flush_done; `write_err` is
the result of rmt_write_sample(..., wait := false).  The Bool in the result
records whether rmt_write_sample was invoked (a transmission was started). -/
def led_strip_start_flush (handle : Option led_strip_t)
    (wait_err write_err : EspErr) : OpOutcome (Option led_strip_t × Bool) :=
  match handle with
  | none => .ret .ESP_ERR_INVALID_ARG (none, false)
  | some h =>
    match led_strip_flush_done (some h) false wait_err with
    | .crash => .crash
    | .ret err done_out =>
      if err ≠ .ESP_OK then .ret err (some h, false)
      else
        let ready := done_out.getD false
        if ready = false then .ret .ESP_ERR_NOT_FINISHED (some h, false)
        else if write_err ≠ .ESP_OK then .ret write_err (some h, true)
        else .ret .ESP_OK (some { h with has_flushed := true }, true)

/-- led_strip_flush from led_strip.c: same as led_strip_start_flush except
that the handle-NULL check happens inside the led_strip_flush_done call and
rmt_write_sample is invoked with wait := true (blocking). -/
def led_strip_flush (handle : Option led_strip_t)
    (wait_err write_err : EspErr) : OpOutcome (Option led_strip_t × Bool) :=
  match led_strip_flush_done handle false wait_err with
  | .crash => .crash
  | .ret err done_out =>
    match handle with
    | none => .ret err (none, false)
    | some h =>
      if err ≠ .ESP_OK then .ret err (some h, false)
      else
        let ready := done_out.getD false
        if ready = false then .ret .ESP_ERR_NOT_FINISHED (some h, false)
        else if write_err ≠ .ESP_OK then .ret write_err (some h, true)
        else .ret .ESP_OK (some { h with has_flushed := true }, true)

/-- led_strip_wait_for_flush_finish from led_strip.c: the source dereferences
handle->channel with no NULL check, so a NULL handle crashes.  `wait_err` is
the result of rmt_wait_tx_done(channel, portMAX_DELAY). -/
def led_strip_wait_for_flush_finish (handle : Option led_strip_t)
    (wait_err : EspErr) : OpOutcome (Option led_strip_t) :=
  match handle with
  | none => .crash
  | some h =>
    if wait_err ≠ .ESP_OK then .ret wait_err (some h)
    else .ret .ESP_OK (some h)

/-- led_strip_free from led_strip.c: the source dereferences handle->channel
with no NULL check, so a NULL handle crashes.  `uninstall_err` is the result
of rmt_driver_uninstall; on success the instance is deallocated (state
becomes `none`). -/
def led_strip_free (handle : Option led_strip_t)
    (uninstall_err : EspErr) : OpOutcome (Option led_strip_t) :=
  match handle with
  | none => .crash
  | some h =>
    if uninstall_err ≠ .ESP_OK then .ret uninstall_err (some h)
    else .ret .ESP_OK none

/-- led_strip_set_pixel_rgb from led_strip.c. -/
def led_strip_set_pixel_rgb (handle : Option led_strip_t) (index : Nat)
    (r g b : Nat) : OpOutcome (Option led_strip_t) :=
  match handle with
  | none => .ret .ESP_ERR_INVALID_ARG none
  | some h =>
    if index ≥ h.led_count then .ret .ESP_ERR_INVALID_SIZE (some h)
    else
      let color : led_strip_color_t := { r := r, g := g, b := b, w := 0 }
      let color :=
        if h.enable_w_channel then convert_from_rgb_to_rgbw color else color
      .ret .ESP_OK (some (set_color_data h index color))

/-- led_strip_set_pixel_rgbw from led_strip.c. -/
def led_strip_set_pixel_rgbw (handle : Option led_strip_t) (index : Nat)
    (r g b w : Nat) : OpOutcome (Option led_strip_t) :=
  match handle with
  | none => .ret .ESP_ERR_INVALID_ARG none
  | some h =>
    if index ≥ h.led_count then .ret .ESP_ERR_INVALID_SIZE (some h)
    else
      let color : led_strip_color_t := { r := r, g := g, b := b, w := w }
      let color :=
        if h.enable_w_channel = false then convert_from_rgbw_to_rgb color
        else color
      .ret .ESP_OK (some (set_color_data h index color))

/-- led_strip_fill_rgb from led_strip.c: apply set_color_data to every index
in [0, led_count) in ascending order. -/
def led_strip_fill_rgb (handle : Option led_strip_t)
    (r g b : Nat) : OpOutcome (Option led_strip_t) :=
  match handle with
  | none => .ret .ESP_ERR_INVALID_ARG none
  | some h =>
    let color : led_strip_color_t := { r := r, g := g, b := b, w := 0 }
    let color :=
      if h.enable_w_channel then convert_from_rgb_to_rgbw color else color
    let h :=
      (List.range h.led_count).foldl (fun acc i => set_color_data acc i color) h
    .ret .ESP_OK (some h)

/-- led_strip_fill_rgbw from led_strip.c. -/
def led_strip_fill_rgbw (handle : Option led_strip_t)
    (r g b w : Nat) : OpOutcome (Option led_strip_t) :=
  match handle with
  | none => .ret .ESP_ERR_INVALID_ARG none
  | some h =>
    let color : led_strip_color_t := { r := r, g := g, b := b, w := w }
    let color :=
      if h.enable_w_channel = false then convert_from_rgbw_to_rgb color
      else color
    let h :=
      (List.range h.led_count).foldl (fun acc i => set_color_data acc i color) h
    .ret .ESP_OK (some h)

/-- Observable side effect of led_strip_install on memory and on the global
channel table. -/
inductive Effect where
  | alloc
  | dealloc
  | mark_used (channel : Nat)
  | mark_free (channel : Nat)
  deriving DecidableEq, Repr

/-- Results of the external collaborators invoked by led_strip_install, in
call order: heap allocation, find_empty_channel over the global channel
table, and the six RMT driver calls. -/
structure InstallEnv where
  alloc_ok : Bool
  free_channel : Option Nat
  rmt_config_err : EspErr
  driver_install_err : EspErr
  translator_init_err : EspErr
  set_context_err : EspErr
  loop_mode_err : EspErr
  intr_en_err : EspErr
  deriving DecidableEq, Repr

/-- alloc_led_strip from led_strip.c: calloc the instance and its pixel
buffer (both zero-filled); the buffer length is led_count bytes-per-pixel
computed from the config's enable_w_channel flag. -/
def alloc_led_strip (config : led_strip_config_t) : led_strip_t :=
  { channel := 0
    led_timing := { low_on := 0, low_off := 0, high_on := 0, high_off := 0, reset_time := 0 }
    color_order := .LED_STRIP_COLOR_ORDER_RGBW
    pixel_colors :=
      List.replicate (config.led_count * CALC_COLOR_SIZE config.enable_w_channel) 0
    led_count := 0
    enable_w_channel := false
    has_flushed := false }

/-- led_strip_install from led_strip.c.  `new_handle_is_null` models a NULL
out-pointer; `config = none` models a NULL config pointer.  Returns the error
code, the handle written through new_handle (`none` when none was), and the
list of memory/channel side effects in the order they occurred. -/
def led_strip_install (new_handle_is_null : Bool)
    (config : Option led_strip_config_t) (env : InstallEnv) :
    EspErr × Option led_strip_t × List Effect :=
  match config with
  | none => (.ESP_ERR_INVALID_ARG, none, [])
  | some cfg =>
    if new_handle_is_null then (.ESP_ERR_INVALID_ARG, none, [])
    else if cfg.led_count = 2 then (.ESP_ERR_NOT_SUPPORTED, none, [])
    else if env.alloc_ok = false then (.ESP_ERR_NO_MEM, none, [])
    else
      let handle :=
        { alloc_led_strip cfg with
            led_timing := map_timing cfg.timing_config
            enable_w_channel := cfg.enable_w_channel
            color_order := cfg.color_order
            led_count := cfg.led_count
            has_flushed := false }
      match env.free_channel with
      | none => (.ESP_ERR_NOT_FOUND, some handle, [.alloc, .dealloc])
      | some channel =>
        let handle := { handle with channel := channel }
        let rollback : List Effect :=
          [.alloc, .mark_used channel, .dealloc, .mark_free channel]
        if env.rmt_config_err ≠ .ESP_OK then
          (env.rmt_config_err, some handle, rollback)
        else if env.driver_install_err ≠ .ESP_OK then
          (env.driver_install_err, some handle, rollback)
        else if env.translator_init_err ≠ .ESP_OK then
          (env.translator_init_err, some handle, rollback)
        else if env.set_context_err ≠ .ESP_OK then
          (env.set_context_err, some handle, rollback)
        else if env.loop_mode_err ≠ .ESP_OK then
          (env.loop_mode_err, some handle, rollback)
        else if env.intr_en_err ≠ .ESP_OK then
          (env.intr_en_err, some handle, rollback)
        else
          (.ESP_OK, some handle, [.alloc, .mark_used channel])

/-! ### Helper lemmas and sample instances -/

theorem BIT_SET_eq_testBit (val bit : Nat) :
    BIT_SET val bit = val.testBit bit := by
  unfold BIT_SET
  rw [Nat.shiftLeft_eq, one_mul]
  cases h : val.testBit bit with
  | false =>
      rw [Nat.and_two_pow, h]
      have hpos : 0 < 2 ^ bit := Nat.pos_pow_of_pos bit (by norm_num)
      simp only [Bool.toNat_false, zero_mul]
      exact beq_eq_false_iff_ne.mpr (by omega)
  | true =>
      rw [Nat.and_two_pow, h]
      simp

theorem getD_set_self (l : List Nat) (n a : Nat) (h : n < l.length) :
    (l.set n a).getD n 0 = a := by
  rw [List.getD_eq_getElem?_getD, List.getElem?_set_eq_of_lt a h]
  rfl

theorem getD_set_ne (l : List Nat) (n m a : Nat) (h : n ≠ m) :
    (l.set n a).getD m 0 = l.getD m 0 := by
  rw [List.getD_eq_getElem?_getD, List.getElem?_set_ne h,
    ← List.getD_eq_getElem?_getD]

/-- Symbol the translator emits for a 1 bit: active phase high_on, then
inactive phase high_off (spec-side abbreviation). -/
def high_symbol (t : led_strip_manual_timing_t) : rmt_item32_t :=
  { duration0 := t.high_on, level0 := 1, duration1 := t.high_off, level1 := 0 }

/-- Symbol the translator emits for a 0 bit: active phase low_on, then
inactive phase low_off (spec-side abbreviation). -/
def low_symbol (t : led_strip_manual_timing_t) : rmt_item32_t :=
  { duration0 := t.low_on, level0 := 1, duration1 := t.low_off, level1 := 0 }

/-- Symbol the spec prescribes for bit number `bit` of `data`. -/
def bit_symbol (data bit : Nat) (t : led_strip_manual_timing_t) : rmt_item32_t :=
  if data.testBit bit then high_symbol t else low_symbol t

/-- A concrete timing table whose four duration fields are pairwise distinct,
used to instantiate counterexamples and witnesses. -/
def sample_timing : led_strip_manual_timing_t :=
  { low_on := 1, low_off := 2, high_on := 3, high_off := 4, reset_time := 5 }

/-- A 1-pixel RGBW-order strip with the W channel enabled. -/
def rgbw_strip : led_strip_t :=
  { channel := 0, led_timing := sample_timing
    color_order := .LED_STRIP_COLOR_ORDER_RGBW
    pixel_colors := [0, 0, 0, 0], led_count := 1
    enable_w_channel := true, has_flushed := false }

/-- A 1-pixel GRBW-order strip with the W channel enabled. -/
def grbw_strip : led_strip_t :=
  { channel := 0, led_timing := sample_timing
    color_order := .LED_STRIP_COLOR_ORDER_GRBW
    pixel_colors := [0, 0, 0, 0], led_count := 1
    enable_w_channel := true, has_flushed := false }

/-- A 5-pixel RGBW-order strip with the W channel disabled, with the
zero-filled 15-byte buffer an install would produce. -/
def rgb_strip_5 : led_strip_t :=
  { channel := 0, led_timing := sample_timing
    color_order := .LED_STRIP_COLOR_ORDER_RGBW
    pixel_colors := List.replicate 15 0, led_count := 5
    enable_w_channel := false, has_flushed := false }

/-- A freshly installed strip: has_flushed is false. -/
def fresh_strip : led_strip_t := rgb_strip_5

/-- The fresh strip after a successful start_flush: has_flushed is true. -/
def flushed_strip : led_strip_t := { fresh_strip with has_flushed := true }

/-! ### Claim theorems -/

/-- C2: for every input byte and every timing table, the translator emits
exactly 8 symbols for that byte, most-significant-bit first; each symbol is
an active (high) phase followed by an inactive (low) phase, with durations
(high_on, high_off) for a 1 bit and (low_on, low_off) for a 0 bit. -/
theorem translate_emits_8_symbols_msb_first (data : Nat)
    (t : led_strip_manual_timing_t) :
    translate_uint8_to_rmt_samples data t =
      [bit_symbol data 7 t, bit_symbol data 6 t, bit_symbol data 5 t,
       bit_symbol data 4 t, bit_symbol data 3 t, bit_symbol data 2 t,
       bit_symbol data 1 t, bit_symbol data 0 t] := by
  simp [translate_uint8_to_rmt_samples,
    show List.range 8 = [0, 1, 2, 3, 4, 5, 6, 7] from rfl,
    bit_symbol, high_symbol, low_symbol, BIT_SET_eq_testBit]

/-- C3 counterexample: the claim predicts that byte 0b10110000 encodes to the
symbol pattern [high, high, low, high, high, low, low, low]; on the code the
second symbol is a low symbol (bit 6 of 0b10110000 is 0), so the claimed
pattern is wrong. -/
theorem bit_order_example_counterexample :
    translate_uint8_to_rmt_samples 176 sample_timing ≠
      [high_symbol sample_timing, high_symbol sample_timing,
       low_symbol sample_timing, high_symbol sample_timing,
       high_symbol sample_timing, low_symbol sample_timing,
       low_symbol sample_timing, low_symbol sample_timing] := by
  decide

/-- C3 amended: encoding the single byte 0b10110000 produces the 8-symbol
duration sequence [high, low, high, high, low, low, low, low] (MSB first),
each symbol being the (on, off) pair from the active timing table for that
bit value. -/
theorem bit_order_example (t : led_strip_manual_timing_t) :
    translate_uint8_to_rmt_samples 176 t =
      [high_symbol t, low_symbol t, high_symbol t, high_symbol t,
       low_symbol t, low_symbol t, low_symbol t, low_symbol t] := by
  simp [translate_uint8_to_rmt_samples,
    show List.range 8 = [0, 1, 2, 3, 4, 5, 6, 7] from rfl,
    high_symbol, low_symbol,
    show BIT_SET 176 7 = true from rfl, show BIT_SET 176 6 = false from rfl,
    show BIT_SET 176 5 = true from rfl, show BIT_SET 176 4 = true from rfl,
    show BIT_SET 176 3 = false from rfl, show BIT_SET 176 2 = false from rfl,
    show BIT_SET 176 1 = false from rfl, show BIT_SET 176 0 = false from rfl]

/-- C1: for every source buffer of n bytes and every requested symbol
capacity c, one invocation of the translator callback (with its context
installed) reports exactly min(c / 8, n) source bytes consumed and 8 times
that many symbols produced; in particular, if c < 8 it reports 0 bytes and
0 symbols regardless of n. -/
theorem rmt_adapter_byte_count_law (src : List Nat) (wanted_num : Nat)
    (handle : led_strip_t) :
    (rmt_adapter src wanted_num (some handle)).1 =
      min (wanted_num / 8) src.length ∧
    (rmt_adapter src wanted_num (some handle)).2.1 =
      8 * min (wanted_num / 8) src.length ∧
    (wanted_num < 8 → rmt_adapter src wanted_num (some handle) = (0, 0, [])) := by
  unfold rmt_adapter
  by_cases hw : wanted_num < 8
  · have h0 : wanted_num / 8 = 0 := Nat.div_eq_of_lt hw
    simp [hw, h0]
  · have hmin : (if wanted_num / 8 > src.length then src.length
        else wanted_num / 8) = min (wanted_num / 8) src.length := by
      rw [Nat.min_def]
      split <;> split <;> omega
    simp [hw, hmin]

/-- C1 witness: with capacity 7 < 8 the adapter reports zero consumed and
zero produced on a nonempty source. -/
theorem rmt_adapter_byte_count_law_witness :
    rmt_adapter [9, 9, 9] 7 (some rgbw_strip) = (0, 0, []) :=
  (rmt_adapter_byte_count_law [9, 9, 9] 7 rgbw_strip).2.2 (by decide)

/-- C4 counterexample: under the GRBW layout, writing color (1,2,3,4) at
pixel 0 of a 4-byte strip yields the buffer [2,3,1,4] (g,b,r,w), not the
buffer [3,1,2,4] (b,r,g,w) that the claimed r/b swap relative to RGBW would
produce: relative to RGBW it is r and g that exchange offsets, not r and b. -/
theorem buffer_layout_law_counterexample :
    (set_color_data grbw_strip 0 ⟨1, 2, 3, 4⟩).pixel_colors = [2, 3, 1, 4] ∧
    (set_color_data grbw_strip 0 ⟨1, 2, 3, 4⟩).pixel_colors ≠ [3, 1, 2, 4] := by
  decide

/-- C4 amended: for every pixel index i and color (r,g,b,w) on a
4-byte-per-pixel strip, the RGBW layout places r,g,b,w at byte offsets
i*4+0, i*4+2, i*4+1, i*4+3 respectively (the 2nd/3rd physical bytes
swapped), and the GRBW layout swaps the r/g assignment relative to RGBW
(g at i*4+0, r at i*4+2) while the 2nd/3rd-byte swap rule is preserved
identically. -/
theorem buffer_layout_law (s : led_strip_t) (i : Nat) (c : led_strip_color_t)
    (hw : s.enable_w_channel = true)
    (hlen : 4 * i + 4 ≤ s.pixel_colors.length) :
    (s.color_order = .LED_STRIP_COLOR_ORDER_RGBW →
      (set_color_data s i c).pixel_colors.getD (i * 4) 0 = c.r ∧
      (set_color_data s i c).pixel_colors.getD (i * 4 + 2) 0 = c.g ∧
      (set_color_data s i c).pixel_colors.getD (i * 4 + 1) 0 = c.b ∧
      (set_color_data s i c).pixel_colors.getD (i * 4 + 3) 0 = c.w) ∧
    (s.color_order = .LED_STRIP_COLOR_ORDER_GRBW →
      (set_color_data s i c).pixel_colors.getD (i * 4 + 2) 0 = c.r ∧
      (set_color_data s i c).pixel_colors.getD (i * 4) 0 = c.g ∧
      (set_color_data s i c).pixel_colors.getD (i * 4 + 1) 0 = c.b ∧
      (set_color_data s i c).pixel_colors.getD (i * 4 + 3) 0 = c.w) := by
  constructor
  · intro hord
    simp only [set_color_data, CALC_COLOR_SIZE, hw, hord, if_true]
    refine ⟨?_, ?_, ?_, ?_⟩
    · rw [Nat.mul_comm i 4, getD_set_ne _ _ _ _ (by omega),
        getD_set_ne _ _ _ _ (by omega)]
      exact getD_set_self _ _ _ (by simp; omega)
    · rw [Nat.mul_comm i 4, getD_set_ne _ _ _ _ (by omega)]
      exact getD_set_self _ _ _ (by simp; omega)
    · rw [Nat.mul_comm i 4]
      exact getD_set_self _ _ _ (by simp; omega)
    · rw [Nat.mul_comm i 4, getD_set_ne _ _ _ _ (by omega),
        getD_set_ne _ _ _ _ (by omega), getD_set_ne _ _ _ _ (by omega)]
      exact getD_set_self _ _ _ (by omega)
  · intro hord
    simp only [set_color_data, CALC_COLOR_SIZE, hw, hord, if_true]
    refine ⟨?_, ?_, ?_, ?_⟩
    · rw [Nat.mul_comm i 4, getD_set_ne _ _ _ _ (by omega),
        getD_set_ne _ _ _ _ (by omega)]
      exact getD_set_self _ _ _ (by simp; omega)
    · rw [Nat.mul_comm i 4, getD_set_ne _ _ _ _ (by omega)]
      exact getD_set_self _ _ _ (by simp; omega)
    · rw [Nat.mul_comm i 4]
      exact getD_set_self _ _ _ (by simp; omega)
    · rw [Nat.mul_comm i 4, getD_set_ne _ _ _ _ (by omega),
        getD_set_ne _ _ _ _ (by omega), getD_set_ne _ _ _ _ (by omega)]
      exact getD_set_self _ _ _ (by omega)

/-- C4 witness: on the 1-pixel RGBW strip, writing color (1,2,3,4) at pixel 0
places r = 1 at byte offset 0. -/
theorem buffer_layout_law_witness :
    (set_color_data rgbw_strip 0 ⟨1, 2, 3, 4⟩).pixel_colors.getD 0 0 = 1 :=
  ((buffer_layout_law rgbw_strip 0 ⟨1, 2, 3, 4⟩ rfl (by decide)).1 rfl).1

/-- C5: fill with color (10,20,30) on the 5-pixel RGB-only strip (RGBW
order, W disabled) succeeds and yields exactly the 15-byte buffer
[10,30,20] repeated five times: 3 bytes per pixel, 2nd/3rd-byte swap
applied, every pixel written in ascending index order, and no w-channel
byte written anywhere. -/
theorem fill_rgb_only_strip :
    led_strip_fill_rgb (some rgb_strip_5) 10 20 30 =
      .ret .ESP_OK (some { rgb_strip_5 with
        pixel_colors := [10, 30, 20, 10, 30, 20, 10, 30, 20,
                         10, 30, 20, 10, 30, 20] }) := by
  decide

/-- C6: resolving the named type SK6822 yields ticks ceil(300/p),
ceil(900/p), ceil(600/p), ceil(600/p) and reset ceil(80000/p); WS281x yields
ceil(350/p), ceil(900/p), ceil(900/p), ceil(350/p) and reset ceil(50000/p),
where p = LED_STRIP_NS_PER_TICK is the platform tick period in nanoseconds
(here ceil(x/p) is the Nat expression (x + p - 1) / p); any unknown named
type resolves to the SK6822 table. -/
theorem map_timing_named_tables :
    (∀ m : led_strip_manual_timing_t,
      map_timing ⟨LED_STRIP_TYPE_SK6822, m, false⟩ =
        { low_on := (300 + LED_STRIP_NS_PER_TICK - 1) / LED_STRIP_NS_PER_TICK
          low_off := (900 + LED_STRIP_NS_PER_TICK - 1) / LED_STRIP_NS_PER_TICK
          high_on := (600 + LED_STRIP_NS_PER_TICK - 1) / LED_STRIP_NS_PER_TICK
          high_off := (600 + LED_STRIP_NS_PER_TICK - 1) / LED_STRIP_NS_PER_TICK
          reset_time :=
            (80000 + LED_STRIP_NS_PER_TICK - 1) / LED_STRIP_NS_PER_TICK }) ∧
    (∀ m : led_strip_manual_timing_t,
      map_timing ⟨LED_STRIP_TYPE_WS281x, m, false⟩ =
        { low_on := (350 + LED_STRIP_NS_PER_TICK - 1) / LED_STRIP_NS_PER_TICK
          low_off := (900 + LED_STRIP_NS_PER_TICK - 1) / LED_STRIP_NS_PER_TICK
          high_on := (900 + LED_STRIP_NS_PER_TICK - 1) / LED_STRIP_NS_PER_TICK
          high_off := (350 + LED_STRIP_NS_PER_TICK - 1) / LED_STRIP_NS_PER_TICK
          reset_time :=
            (50000 + LED_STRIP_NS_PER_TICK - 1) / LED_STRIP_NS_PER_TICK }) ∧
    (∀ (ty : Nat) (m : led_strip_manual_timing_t),
      ty ≠ LED_STRIP_TYPE_SK6822 → ty ≠ LED_STRIP_TYPE_WS281x →
      map_timing ⟨ty, m, false⟩ = map_timing ⟨LED_STRIP_TYPE_SK6822, m, false⟩) := by
  refine ⟨fun m => rfl, fun m => rfl, fun ty m h1 h3 => ?_⟩
  simp [map_timing, h1, h3]

/-- C6 witness: the unknown named type 7 resolves to the SK6822 table, whose
low_on field is ceil(300/100) = 3. -/
theorem map_timing_named_tables_witness :
    map_timing ⟨7, sample_timing, false⟩ =
      map_timing ⟨LED_STRIP_TYPE_SK6822, sample_timing, false⟩ :=
  map_timing_named_tables.2.2 7 sample_timing (by decide) (by decide)

/-- If led_strip_start_flush returns ESP_OK, the resulting strip is the
input strip with its has_flushed flag set. -/
theorem start_flush_ok_state (h h2 : led_strip_t) (w1 w2 : EspErr)
    (started : Bool)
    (hEq : led_strip_start_flush (some h) w1 w2 =
      .ret .ESP_OK (some h2, started)) :
    h2 = { h with has_flushed := true } := by
  cases hfl : h.has_flushed <;> cases w1 <;> cases w2 <;>
      simp [led_strip_start_flush, led_strip_flush_done, hfl] at hEq <;>
      exact hEq.1.symm

/-- If led_strip_install returns ESP_OK with a handle, that handle has never
flushed. -/
theorem install_ok_state (nh : Bool) (cfg : led_strip_config_t)
    (env : InstallEnv) (h : led_strip_t) (eff : List Effect)
    (hEq : led_strip_install nh (some cfg) env = (.ESP_OK, some h, eff)) :
    h.has_flushed = false := by
  unfold led_strip_install at hEq
  cases nh with
  | true => simp at hEq
  | false =>
    by_cases hc2 : cfg.led_count = 2
    · simp [hc2] at hEq
    · by_cases hal : env.alloc_ok
      · cases hch : env.free_channel with
        | none => simp [hc2, hal, hch] at hEq
        | some ch =>
          by_cases e1 : env.rmt_config_err = .ESP_OK
          · by_cases e2 : env.driver_install_err = .ESP_OK
            · by_cases e3 : env.translator_init_err = .ESP_OK
              · by_cases e4 : env.set_context_err = .ESP_OK
                · by_cases e5 : env.loop_mode_err = .ESP_OK
                  · by_cases e6 : env.intr_en_err = .ESP_OK
                    · simp [hc2, hal, hch, e1, e2, e3, e4, e5, e6] at hEq
                      rw [← hEq.1]
                    · simp [hc2, hal, hch, e1, e2, e3, e4, e5, e6] at hEq
                  · simp [hc2, hal, hch, e1, e2, e3, e4, e5] at hEq
                · simp [hc2, hal, hch, e1, e2, e3, e4] at hEq
              · simp [hc2, hal, hch, e1, e2, e3] at hEq
            · simp [hc2, hal, hch, e1, e2] at hEq
          · simp [hc2, hal, hch, e1] at hEq
      · simp [hc2, hal] at hEq

/-- C7: a successfully installed strip has never flushed; flush_done on a
strip that has never flushed reports done = true with ESP_OK; and a second
start_flush issued while the transmission begun by a first successful
start_flush has not completed (the zero-timeout poll reports
ESP_ERR_TIMEOUT) returns ESP_ERR_NOT_FINISHED, starts no new transmission,
and leaves the strip state unchanged. -/
theorem flush_state_law :
    (∀ (nh : Bool) (cfg : led_strip_config_t) (env : InstallEnv)
        (h : led_strip_t) (eff : List Effect),
      led_strip_install nh (some cfg) env = (.ESP_OK, some h, eff) →
      h.has_flushed = false) ∧
    (∀ (h : led_strip_t) (wait_err : EspErr), h.has_flushed = false →
      led_strip_flush_done (some h) false wait_err = .ret .ESP_OK (some true)) ∧
    (∀ (h h2 : led_strip_t) (wait1 write2 : EspErr),
      led_strip_start_flush (some h) wait1 .ESP_OK =
        .ret .ESP_OK (some h2, true) →
      led_strip_start_flush (some h2) .ESP_ERR_TIMEOUT write2 =
        .ret .ESP_ERR_NOT_FINISHED (some h2, false)) := by
  refine ⟨?_, ?_, ?_⟩
  · intro nh cfg env h eff hEq
    exact install_ok_state nh cfg env h eff hEq
  · intro h wait_err hfl
    simp [led_strip_flush_done, hfl]
  · intro h h2 wait1 write2 hEq
    have hst := start_flush_ok_state h h2 wait1 .ESP_OK true hEq
    subst hst
    simp [led_strip_start_flush, led_strip_flush_done]

/-- C7 witness: on the freshly installed 5-pixel strip, flush_done reports
done = true; after one successful start_flush, a second start_flush while
the poll still reports ESP_ERR_TIMEOUT returns ESP_ERR_NOT_FINISHED with the
state unchanged. -/
theorem flush_state_law_witness :
    led_strip_flush_done (some fresh_strip) false .ESP_OK =
      .ret .ESP_OK (some true) ∧
    led_strip_start_flush (some flushed_strip) .ESP_ERR_TIMEOUT .ESP_OK =
      .ret .ESP_ERR_NOT_FINISHED (some flushed_strip, false) :=
  ⟨flush_state_law.2.1 fresh_strip .ESP_OK rfl,
   flush_state_law.2.2 fresh_strip flushed_strip .ESP_OK .ESP_OK (by decide)⟩

/-- C8: on every installed strip, every index at or beyond led_count makes
set_pixel_rgb and set_pixel_rgbw return ESP_ERR_INVALID_SIZE with the strip
(pixel buffer included) completely unmodified. -/
theorem set_pixel_index_bound_law (h : led_strip_t) (index r g b w : Nat)
    (hidx : index ≥ h.led_count) :
    led_strip_set_pixel_rgb (some h) index r g b =
      .ret .ESP_ERR_INVALID_SIZE (some h) ∧
    led_strip_set_pixel_rgbw (some h) index r g b w =
      .ret .ESP_ERR_INVALID_SIZE (some h) := by
  constructor <;>
    simp [led_strip_set_pixel_rgb, led_strip_set_pixel_rgbw, hidx]

/-- C8 witness: index 5 on the 1-pixel strip is rejected with
ESP_ERR_INVALID_SIZE and the strip is unchanged. -/
theorem set_pixel_index_bound_law_witness :
    led_strip_set_pixel_rgb (some rgbw_strip) 5 1 2 3 =
      .ret .ESP_ERR_INVALID_SIZE (some rgbw_strip) :=
  (set_pixel_index_bound_law rgbw_strip 5 1 2 3 4 (by decide)).1

/-- C9: for every configuration with led_count = 2 (and non-NULL pointers),
install fails with ESP_ERR_NOT_SUPPORTED, writes no handle, and performs no
allocation and no channel-table change. -/
theorem install_led_count_two_not_supported (cfg : led_strip_config_t)
    (env : InstallEnv) (h2 : cfg.led_count = 2) :
    led_strip_install false (some cfg) env =
      (.ESP_ERR_NOT_SUPPORTED, none, []) := by
  simp [led_strip_install, h2]

/-- A well-formed sample configuration with led_count = 2. -/
def sample_config : led_strip_config_t :=
  { timing_config :=
      { timing_type := LED_STRIP_TYPE_SK6822
        timing_manual := sample_timing
        use_manual_timing := false }
    color_order := .LED_STRIP_COLOR_ORDER_RGBW
    gpio_output_num := 5
    led_count := 2
    enable_w_channel := false }

/-- An environment in which every collaborator call would succeed. -/
def sample_env : InstallEnv :=
  { alloc_ok := true, free_channel := some 0
    rmt_config_err := .ESP_OK, driver_install_err := .ESP_OK
    translator_init_err := .ESP_OK, set_context_err := .ESP_OK
    loop_mode_err := .ESP_OK, intr_en_err := .ESP_OK }

/-- C9 witness: the sample 2-pixel configuration is rejected with
ESP_ERR_NOT_SUPPORTED and no side effects, even though every collaborator
call would have succeeded. -/
theorem install_led_count_two_not_supported_witness :
    led_strip_install false (some sample_config) sample_env =
      (.ESP_ERR_NOT_SUPPORTED, none, []) :=
  install_led_count_two_not_supported sample_config sample_env rfl

/-- C10 counterexample: the claim says led_strip_free and
led_strip_wait_for_flush_finish return ESP_ERR_INVALID_ARG on a NULL handle;
in the source both dereference the handle with no NULL check, modelled as
OpOutcome.crash, so neither returns an error code. -/
theorem null_handle_claim_counterexample :
    led_strip_free none .ESP_OK = OpOutcome.crash ∧
    led_strip_free none .ESP_OK ≠
      OpOutcome.ret .ESP_ERR_INVALID_ARG none ∧
    led_strip_wait_for_flush_finish none .ESP_OK = OpOutcome.crash := by
  refine ⟨rfl, ?_, rfl⟩
  decide

/-- C10 amended: the set-pixel, fill, flush, start_flush and flush_done
operations return ESP_ERR_INVALID_ARG on a NULL handle without touching it;
led_strip_free and led_strip_wait_for_flush_finish perform no NULL check and
dereference the NULL handle (modelled as OpOutcome.crash). -/
theorem null_handle_law :
    (∀ i r g b, led_strip_set_pixel_rgb none i r g b =
      .ret .ESP_ERR_INVALID_ARG none) ∧
    (∀ i r g b w, led_strip_set_pixel_rgbw none i r g b w =
      .ret .ESP_ERR_INVALID_ARG none) ∧
    (∀ r g b, led_strip_fill_rgb none r g b =
      .ret .ESP_ERR_INVALID_ARG none) ∧
    (∀ r g b w, led_strip_fill_rgbw none r g b w =
      .ret .ESP_ERR_INVALID_ARG none) ∧
    (∀ (d : Bool) (we : EspErr), led_strip_flush_done none d we =
      .ret .ESP_ERR_INVALID_ARG none) ∧
    (∀ w1 w2 : EspErr, led_strip_start_flush none w1 w2 =
      .ret .ESP_ERR_INVALID_ARG (none, false)) ∧
    (∀ w1 w2 : EspErr, led_strip_flush none w1 w2 =
      .ret .ESP_ERR_INVALID_ARG (none, false)) ∧
    (∀ u : EspErr, led_strip_free none u = .crash) ∧
    (∀ we : EspErr, led_strip_wait_for_flush_finish none we = .crash) := by
  refine ⟨fun i r g b => rfl, fun i r g b w => rfl, fun r g b => rfl,
    fun r g b w => rfl, fun d we => rfl, fun w1 w2 => rfl,
    fun w1 w2 => rfl, fun u => rfl, fun we => rfl⟩

end LedStrip
